import Mathlib

/-!
Shallow embedding of `src/hyperdbg/hprdbghv/code/vmm/vmx/IdtEmulation.c`,
the VM-exit interrupt/exception dispatch and re-injection subsystem.

Modelling conventions:
* Interrupt descriptors (`VMEXIT_INTERRUPT_INFORMATION`) are carried in
  their raw encoded form as a `Nat`; the bit fields (vector, type,
  error-code-valid, valid) are extracted arithmetically exactly as the
  hardware layout prescribes (vector bits 0-7, type bits 8-10,
  error-code-valid bit 11, valid bit 31).
* The per-core context (`VIRTUAL_MACHINE_STATE`) is a structure holding the
  three suppression flags, the fixed-capacity pending-interrupt slot array
  (a list whose length is the capacity; `0` is the empty sentinel, exactly
  as the C code compares slots against `NULL`), and a shadow of the
  interrupt-window-exiting control.
* VMCS reads (`__vmx_vmread`) return values from an explicit environment
  `VmcsEnv`; every externally visible action (vmreads, vmwrites, CR2 write,
  RIP-increment suppression, window-exiting control, collaborator calls,
  event injections, error logs) is recorded in order in a trace of
  `Effect`s, so that frame conditions ("never reads X", "writes Y exactly
  once") are directly statable.
* Collaborator probes (EPT breakpoint probe, debugger callbacks, syscall
  hook) are external; their boolean answers are supplied by an `Oracle`.
-/

/-- Externally visible actions of the IDT-emulation handlers, in program
order: VMCS reads and writes, CR2 write, RIP-increment suppression, the
interrupt-window-exiting control, collaborator calls with their returned
answers, event injections and the diagnostic error log. -/
inductive Effect where
  | readExitInterruptionErrorCode (v : Nat)
  | readExitQualification (v : Nat)
  | readGuestRflags (v : Nat)
  | readGuestInterruptibilityState (v : Nat)
  | readCr2 (v : Nat)
  | writeCr2 (v : Nat)
  | suppressRipIncrement
  | writeVmEntryInterruptionInfo (v : Nat)
  | writeVmEntryExceptionErrorCode (v : Nat)
  | setInterruptWindowExiting (b : Bool)
  | callEptCheckAndHandleBreakpoint (handled : Bool)
  | callDebuggingCallbackHandleBreakpointException (handled : Bool)
  | callDebuggingCallbackConditionalPageFaultException (handled : Bool)
  | callDebuggingCallbackHandleDebugBreakpointException (handled : Bool)
  | callSyscallHookHandleUD (handled : Bool)
  | eventInjectBreakpoint
  | eventInjectUndefinedOpcode
  | eventInjectInterruptOrException (d : Nat)
  | logError
  deriving DecidableEq, Repr

/-- The fields of `VIRTUAL_MACHINE_STATE` that IdtEmulation.c touches:
the suppression flags, the pending-interrupt slot array
(`PendingExternalInterrupts`, `0` = empty sentinel, list length =
`PENDING_INTERRUPTS_BUFFER_CAPACITY`) and the shadow of the
interrupt-window-exiting control mutated via `HvSetInterruptWindowExiting`. -/
structure VCpuState where
  EnableExternalInterruptsOnContinue : Bool
  EnableExternalInterruptsOnContinueMtf : Bool
  RegisterBreakOnMtf : Bool
  PendingExternalInterrupts : List Nat
  InterruptWindowExiting : Bool
  deriving DecidableEq, Repr

/-- Values returned by `__vmx_vmread` for the fields this unit reads. -/
structure VmcsEnv where
  exitInterruptionErrorCode : Nat
  exitQualification : Nat
  guestRflags : Nat
  guestInterruptibilityState : Nat
  deriving DecidableEq, Repr

/-- Answers of the external collaborators consulted by the exception/NMI
dispatcher, plus the value of `__readcr2()`. -/
structure Oracle where
  eptCheckAndHandleBreakpoint : Bool
  debuggingCallbackHandleBreakpointException : Bool
  debuggingCallbackConditionalPageFaultException : Bool
  debuggingCallbackHandleDebugBreakpointException : Bool
  syscallHookHandleUD : Bool
  cr2 : Nat
  deriving DecidableEq, Repr

/-- `VMEXIT_INTERRUPT_INFORMATION.Vector`: bits 0-7 of the raw encoding. -/
def vectorOf (d : Nat) : Nat := d % 2 ^ 8

/-- `VMEXIT_INTERRUPT_INFORMATION.InterruptionType`: bits 8-10. -/
def interruptionTypeOf (d : Nat) : Nat := d / 2 ^ 8 % 2 ^ 3

/-- `VMEXIT_INTERRUPT_INFORMATION.ErrorCodeValid`: bit 11. -/
def errorCodeValidOf (d : Nat) : Bool := d / 2 ^ 11 % 2 == 1

/-- `VMEXIT_INTERRUPT_INFORMATION.Valid`: bit 31. -/
def validOf (d : Nat) : Bool := d / 2 ^ 31 % 2 == 1

/-- `RFLAGS.InterruptEnableFlag`: bit 9 of the guest flags register. -/
def interruptEnableFlagOf (r : Nat) : Bool := r / 2 ^ 9 % 2 == 1

/-- `VMX_INTERRUPTIBILITY_STATE.BlockingByMovSs`: bit 1 of the guest
interruptibility-state field. -/
def blockingByMovSsOf (s : Nat) : Bool := s / 2 ^ 1 % 2 == 1

def INTERRUPT_TYPE_EXTERNAL_INTERRUPT : Nat := 0

def EXCEPTION_VECTOR_DEBUG_BREAKPOINT : Nat := 1

def EXCEPTION_VECTOR_NMI : Nat := 2

def EXCEPTION_VECTOR_BREAKPOINT : Nat := 3

def EXCEPTION_VECTOR_UNDEFINED_OPCODE : Nat := 6

def EXCEPTION_VECTOR_PAGE_FAULT : Nat := 14

/-- `IdtEmulationInjectInterruptWhenInterruptWindowIsOpen` (lines 224-251):
scan the pending slots from index 0, store the raw descriptor into the
first slot holding the empty sentinel (`NULL`, i.e. `0`) and stop; return
the updated slots and `FoundAPlaceForFutureInjection`. -/
def IdtEmulationInjectInterruptWhenInterruptWindowIsOpen :
    List Nat → Nat → List Nat × Bool
  | [], _ => ([], false)
  | s :: rest, raw =>
    if s = 0 then (raw :: rest, true)
    else
      let p := IdtEmulationInjectInterruptWhenInterruptWindowIsOpen rest raw
      (s :: p.1, p.2)

/-- The slot-scan loop of `IdtEmulationHandleInterruptWindowExiting`
(lines 376-394): find the first non-empty slot, take its value, clear that
slot to the sentinel and stop scanning; `InterruptExit.AsUInt` stays `0`
when every slot is empty. Returns the updated slots and the taken value. -/
def drainPending : List Nat → List Nat × Nat
  | [] => ([], 0)
  | s :: rest =>
    if s ≠ 0 then (0 :: rest, s)
    else
      let p := drainPending rest
      (s :: p.1, p.2)

/-- `IdtEmulationHandlePageFaults` (lines 24-81): read the exit
error-code field (into the unused `PageFaultCode`); if `Address == NULL`
read the exit qualification and write it to CR2, else write `Address` to
CR2; suppress the RIP increment; write the raw descriptor to the VM-entry
interruption-information field; and if the descriptor's error-code-valid
bit is set, write `ErrorCode` to the VM-entry exception-error-code field. -/
def IdtEmulationHandlePageFaults (env : VmcsEnv) (v : VCpuState)
    (interruptExit : Nat) (address : Nat) (errorCode : Nat) :
    VCpuState × List Effect :=
  (v,
   Effect.readExitInterruptionErrorCode env.exitInterruptionErrorCode ::
     (if address = 0 then
        [Effect.readExitQualification env.exitQualification,
         Effect.writeCr2 env.exitQualification]
      else
        [Effect.writeCr2 address]) ++
     [Effect.suppressRipIncrement,
      Effect.writeVmEntryInterruptionInfo interruptExit] ++
     (if errorCodeValidOf interruptExit then
        [Effect.writeVmEntryExceptionErrorCode errorCode]
      else []))

/-- `IdtEmulationHandleExceptionAndNmi` (lines 90-213): dispatch on the
descriptor's vector. Breakpoint: EPT probe first, then the debugger
breakpoint callback, else suppress RIP increment and inject a synthetic
breakpoint. Undefined opcode: syscall-hook probe, else inject a #UD.
Page fault: read the exit error code, consult the conditional page-fault
callback with CR2 and the error code, else re-inject via
`IdtEmulationHandlePageFaults` with `Address = NULL`. Debug breakpoint:
debugger callback, else generic forwarding. NMI: ignored when any
suppression flag is set, else generic forwarding. Default: generic
forwarding. -/
def IdtEmulationHandleExceptionAndNmi (env : VmcsEnv) (orc : Oracle)
    (v : VCpuState) (interruptExit : Nat) : VCpuState × List Effect :=
  if vectorOf interruptExit = EXCEPTION_VECTOR_BREAKPOINT then
    if orc.eptCheckAndHandleBreakpoint then
      (v, [Effect.callEptCheckAndHandleBreakpoint true])
    else if orc.debuggingCallbackHandleBreakpointException then
      (v, [Effect.callEptCheckAndHandleBreakpoint false,
           Effect.callDebuggingCallbackHandleBreakpointException true])
    else
      (v, [Effect.callEptCheckAndHandleBreakpoint false,
           Effect.callDebuggingCallbackHandleBreakpointException false,
           Effect.suppressRipIncrement,
           Effect.eventInjectBreakpoint])
  else if vectorOf interruptExit = EXCEPTION_VECTOR_UNDEFINED_OPCODE then
    if orc.syscallHookHandleUD then
      (v, [Effect.callSyscallHookHandleUD true])
    else
      (v, [Effect.callSyscallHookHandleUD false,
           Effect.eventInjectUndefinedOpcode])
  else if vectorOf interruptExit = EXCEPTION_VECTOR_PAGE_FAULT then
    if orc.debuggingCallbackConditionalPageFaultException then
      (v, [Effect.readExitInterruptionErrorCode env.exitInterruptionErrorCode,
           Effect.readCr2 orc.cr2,
           Effect.callDebuggingCallbackConditionalPageFaultException true])
    else
      let r := IdtEmulationHandlePageFaults env v interruptExit 0
                 env.exitInterruptionErrorCode
      (r.1,
       [Effect.readExitInterruptionErrorCode env.exitInterruptionErrorCode,
        Effect.readCr2 orc.cr2,
        Effect.callDebuggingCallbackConditionalPageFaultException false] ++ r.2)
  else if vectorOf interruptExit = EXCEPTION_VECTOR_DEBUG_BREAKPOINT then
    if orc.debuggingCallbackHandleDebugBreakpointException then
      (v, [Effect.callDebuggingCallbackHandleDebugBreakpointException true])
    else
      (v, [Effect.callDebuggingCallbackHandleDebugBreakpointException false,
           Effect.eventInjectInterruptOrException interruptExit])
  else if vectorOf interruptExit = EXCEPTION_VECTOR_NMI then
    if v.EnableExternalInterruptsOnContinue ||
       v.EnableExternalInterruptsOnContinueMtf ||
       v.RegisterBreakOnMtf then
      (v, [])
    else
      (v, [Effect.eventInjectInterruptOrException interruptExit])
  else
    (v, [Effect.eventInjectInterruptOrException interruptExit])

/-- `IdtEmulationHandleExternalInterrupt` (lines 261-346): when either
continuation-suppression flag is set, enqueue the descriptor and suppress
the RIP increment. Otherwise, for a valid external-interrupt descriptor,
read the guest flags and interruptibility state; if interruptible
(interrupt-enable flag set and not blocked by MOV SS) forward immediately,
else enqueue and arm interrupt-window exiting; in both sub-cases suppress
the RIP increment. Otherwise log a diagnostic error. -/
def IdtEmulationHandleExternalInterrupt (env : VmcsEnv) (v : VCpuState)
    (interruptExit : Nat) : VCpuState × List Effect :=
  if v.EnableExternalInterruptsOnContinue ||
     v.EnableExternalInterruptsOnContinueMtf then
    let p := IdtEmulationInjectInterruptWhenInterruptWindowIsOpen
               v.PendingExternalInterrupts interruptExit
    ({ v with PendingExternalInterrupts := p.1 },
     [Effect.suppressRipIncrement])
  else if validOf interruptExit &&
          interruptionTypeOf interruptExit == INTERRUPT_TYPE_EXTERNAL_INTERRUPT then
    let effs := [Effect.readGuestRflags env.guestRflags,
                 Effect.readGuestInterruptibilityState env.guestInterruptibilityState]
    if interruptEnableFlagOf env.guestRflags &&
       !blockingByMovSsOf env.guestInterruptibilityState then
      (v, effs ++ [Effect.eventInjectInterruptOrException interruptExit,
                   Effect.suppressRipIncrement])
    else
      let p := IdtEmulationInjectInterruptWhenInterruptWindowIsOpen
                 v.PendingExternalInterrupts interruptExit
      ({ v with PendingExternalInterrupts := p.1,
                InterruptWindowExiting := true },
       effs ++ [Effect.setInterruptWindowExiting true,
                Effect.suppressRipIncrement])
  else
    (v, [Effect.logError])

/-- `IdtEmulationHandleInterruptWindowExiting` (lines 366-431): scan the
pending slots for the first non-empty entry and clear it; if nothing was
found disarm interrupt-window exiting, else write the taken descriptor to
the VM-entry interruption-information field and, when its error-code-valid
bit is set, copy the exit error-code field to the VM-entry
exception-error-code field; in all cases suppress the RIP increment. -/
def IdtEmulationHandleInterruptWindowExiting (env : VmcsEnv)
    (v : VCpuState) : VCpuState × List Effect :=
  let p := drainPending v.PendingExternalInterrupts
  if p.2 = 0 then
    ({ v with PendingExternalInterrupts := p.1,
              InterruptWindowExiting := false },
     [Effect.setInterruptWindowExiting false,
      Effect.suppressRipIncrement])
  else
    ({ v with PendingExternalInterrupts := p.1 },
     Effect.writeVmEntryInterruptionInfo p.2 ::
       (if errorCodeValidOf p.2 then
          [Effect.readExitInterruptionErrorCode env.exitInterruptionErrorCode,
           Effect.writeVmEntryExceptionErrorCode env.exitInterruptionErrorCode]
        else []) ++
       [Effect.suppressRipIncrement])

/-- One step of the queue workload used by the capacity-2 acceptance
sequence: either an enqueue of a raw descriptor (via
`IdtEmulationInjectInterruptWhenInterruptWindowIsOpen`) or an
interrupt-window-reopen exit (via
`IdtEmulationHandleInterruptWindowExiting`). -/
inductive QueueOp where
  | enq (raw : Nat)
  | drain
  deriving DecidableEq, Repr

/-- Observation of one queue step: the enqueue's success flag, or the
effect trace of one drain. -/
inductive QueueObs where
  | enqueued (ok : Bool)
  | drained (effs : List Effect)
  deriving DecidableEq, Repr

/-- Run a sequence of queue operations against a per-core state,
collecting one observation per operation. -/
def runQueueOps (env : VmcsEnv) : VCpuState → List QueueOp → VCpuState × List QueueObs
  | v, [] => (v, [])
  | v, QueueOp.enq raw :: rest =>
    let p := IdtEmulationInjectInterruptWhenInterruptWindowIsOpen
               v.PendingExternalInterrupts raw
    let r := runQueueOps env { v with PendingExternalInterrupts := p.1 } rest
    (r.1, QueueObs.enqueued p.2 :: r.2)
  | v, QueueOp.drain :: rest =>
    let p := IdtEmulationHandleInterruptWindowExiting env v
    let r := runQueueOps env p.1 rest
    (r.1, QueueObs.drained p.2 :: r.2)

/-- A fixed VMCS environment for concrete evaluations. -/
def envA : VmcsEnv :=
  { exitInterruptionErrorCode := 0
    exitQualification := 0
    guestRflags := 0
    guestInterruptibilityState := 0 }

/-- Empty capacity-2 queue, no suppression, window-reopen control armed. -/
def vQ2 : VCpuState :=
  { EnableExternalInterruptsOnContinue := false
    EnableExternalInterruptsOnContinueMtf := false
    RegisterBreakOnMtf := false
    PendingExternalInterrupts := [0, 0]
    InterruptWindowExiting := true }

/-- Raw encoding of a valid external interrupt, vector 0x21 (bit 31 set). -/
def descrA : Nat := 2147483681

/-- Raw encoding of a valid external interrupt, vector 0x22. -/
def descrB : Nat := 2147483682

/-- Raw encoding of a valid external interrupt, vector 0x23. -/
def descrC : Nat := 2147483683

/-- The capacity-2 acceptance sequence: enqueue A, B, C; drain; enqueue C;
drain; drain; drain. -/
def seqOps : List QueueOp :=
  [QueueOp.enq descrA, QueueOp.enq descrB, QueueOp.enq descrC,
   QueueOp.drain, QueueOp.enq descrC, QueueOp.drain, QueueOp.drain,
   QueueOp.drain]

/-- Claim C1, counterexample: the capacity-2 sequence does NOT produce the
spec's claimed observations. After the first drain clears slot 0 and
delivers A, the re-enqueued C lands in slot 0, so the second drain
(scanning from index 0) delivers C, not B: the observation list differs
from the claimed one at the sixth step. -/
theorem queue_sequence_counterexample :
    (runQueueOps envA vQ2 seqOps).2 ≠
      [QueueObs.enqueued true, QueueObs.enqueued true, QueueObs.enqueued false,
       QueueObs.drained [Effect.writeVmEntryInterruptionInfo descrA,
                         Effect.suppressRipIncrement],
       QueueObs.enqueued true,
       QueueObs.drained [Effect.writeVmEntryInterruptionInfo descrB,
                         Effect.suppressRipIncrement],
       QueueObs.drained [Effect.writeVmEntryInterruptionInfo descrC,
                         Effect.suppressRipIncrement],
       QueueObs.drained [Effect.setInterruptWindowExiting false,
                         Effect.suppressRipIncrement]] := by
  decide

/-- Claim C1, amended: the capacity-2 sequence produces success, success,
failure, A delivered, success, C delivered, B delivered, and the final
drain on the now-empty queue disarms the window-reopen notification (both
as an emitted disarm effect and in the shadow state). -/
theorem queue_sequence_amended :
    (runQueueOps envA vQ2 seqOps).2 =
      [QueueObs.enqueued true, QueueObs.enqueued true, QueueObs.enqueued false,
       QueueObs.drained [Effect.writeVmEntryInterruptionInfo descrA,
                         Effect.suppressRipIncrement],
       QueueObs.enqueued true,
       QueueObs.drained [Effect.writeVmEntryInterruptionInfo descrC,
                         Effect.suppressRipIncrement],
       QueueObs.drained [Effect.writeVmEntryInterruptionInfo descrB,
                         Effect.suppressRipIncrement],
       QueueObs.drained [Effect.setInterruptWindowExiting false,
                         Effect.suppressRipIncrement]] ∧
    (runQueueOps envA vQ2 seqOps).1.InterruptWindowExiting = false := by
  constructor
  · decide
  · decide

/-- When every slot holds the empty sentinel, the drain scan finds nothing:
the slots are returned unchanged and the taken value is `0`. -/
theorem drainPending_all_zero (slots : List Nat)
    (h : ∀ x ∈ slots, x = 0) : drainPending slots = (slots, 0) := by
  induction slots with
  | nil => rfl
  | cons s rest ih =>
    have hs : s = 0 := h s (List.mem_cons_self s rest)
    have hr : ∀ x ∈ rest, x = 0 := fun x hx => h x (List.mem_cons_of_mem s hx)
    simp [drainPending, hs, ih hr]

/-- The drain scan on `pre ++ d :: post` with `pre` all-empty and `d`
non-empty takes `d` and clears exactly that slot. -/
theorem drainPending_first (pre post : List Nat) (d : Nat)
    (hpre : ∀ x ∈ pre, x = 0) (hd : d ≠ 0) :
    drainPending (pre ++ d :: post) = (pre ++ 0 :: post, d) := by
  induction pre with
  | nil => simp [drainPending, hd]
  | cons a rest ih =>
    have ha : a = 0 := hpre a (List.mem_cons_self a rest)
    have hr : ∀ x ∈ rest, x = 0 := fun x hx => hpre x (List.mem_cons_of_mem a hx)
    simp [drainPending, ha, ih hr]

/-- Claim C2: on any queue whose first non-empty slot (scanning from index
0) holds `d`, and for every valuation of the three suppression flags and
the armed shadow, the interrupt-window-reopen handler takes `d`, clears
exactly that slot, writes `d` to the VM-entry interruption-information
field, copies the exit error-code field to the VM-entry
exception-error-code field iff `d`'s error-code-valid bit is set, and
suppresses the RIP increment — the suppression flags are quantified but
absent from the conclusion, so delivery never re-checks them. -/
theorem drain_delivers_first_pending (env : VmcsEnv) (v : VCpuState)
    (pre post : List Nat) (d : Nat)
    (hq : v.PendingExternalInterrupts = pre ++ d :: post)
    (hpre : ∀ x ∈ pre, x = 0) (hd : d ≠ 0) :
    IdtEmulationHandleInterruptWindowExiting env v =
      ({ v with PendingExternalInterrupts := pre ++ 0 :: post },
       Effect.writeVmEntryInterruptionInfo d ::
         (if errorCodeValidOf d then
            [Effect.readExitInterruptionErrorCode env.exitInterruptionErrorCode,
             Effect.writeVmEntryExceptionErrorCode env.exitInterruptionErrorCode]
          else []) ++
         [Effect.suppressRipIncrement]) := by
  have hdrain := drainPending_first pre post d hpre hd
  simp [IdtEmulationHandleInterruptWindowExiting, hq, hdrain, hd]

/-- Witness for C2: a concrete three-slot queue `[0, 1029, 7]` whose first
non-empty slot holds `1029` (a descriptor with the error-code-valid bit
set), drained concretely. -/
theorem drain_delivers_first_pending_witness :
    IdtEmulationHandleInterruptWindowExiting envA
        { EnableExternalInterruptsOnContinue := true
          EnableExternalInterruptsOnContinueMtf := false
          RegisterBreakOnMtf := true
          PendingExternalInterrupts := [0, 1029, 7]
          InterruptWindowExiting := true } =
      ({ EnableExternalInterruptsOnContinue := true
         EnableExternalInterruptsOnContinueMtf := false
         RegisterBreakOnMtf := true
         PendingExternalInterrupts := [0, 0, 7]
         InterruptWindowExiting := true },
       [Effect.writeVmEntryInterruptionInfo 1029,
        Effect.suppressRipIncrement]) := by
  have h := drain_delivers_first_pending envA
    { EnableExternalInterruptsOnContinue := true
      EnableExternalInterruptsOnContinueMtf := false
      RegisterBreakOnMtf := true
      PendingExternalInterrupts := [0, 1029, 7]
      InterruptWindowExiting := true }
    [0] [7] 1029 rfl (by decide) (by decide)
  simpa using h

/-- Claim C6: enqueuing into a queue whose every slot is non-empty (full)
reports failure and returns every slot unchanged. -/
theorem enqueue_full_fails (slots : List Nat) (raw : Nat)
    (h : ∀ s ∈ slots, s ≠ 0) :
    IdtEmulationInjectInterruptWhenInterruptWindowIsOpen slots raw =
      (slots, false) := by
  induction slots with
  | nil => rfl
  | cons s rest ih =>
    have hs : s ≠ 0 := h s (List.mem_cons_self s rest)
    have hr : ∀ x ∈ rest, x ≠ 0 := fun x hx => h x (List.mem_cons_of_mem s hx)
    simp [IdtEmulationInjectInterruptWhenInterruptWindowIsOpen, hs, ih hr]

/-- Witness for C6: enqueuing into the concrete full queue `[4, 5]`. -/
theorem enqueue_full_fails_witness :
    IdtEmulationInjectInterruptWhenInterruptWindowIsOpen [4, 5] 9 =
      ([4, 5], false) :=
  enqueue_full_fails [4, 5] 9 (by decide)

/-- Claim C7: the interrupt-window-reopen handler on an all-empty queue
emits exactly one disarm of the window-reopen notification followed by the
RIP-increment suppression — so no VM-entry injection or error-code field
is written — and clears the shadow armed flag. -/
theorem drain_empty_disarms (env : VmcsEnv) (v : VCpuState)
    (h : ∀ x ∈ v.PendingExternalInterrupts, x = 0) :
    IdtEmulationHandleInterruptWindowExiting env v =
      ({ v with InterruptWindowExiting := false },
       [Effect.setInterruptWindowExiting false,
        Effect.suppressRipIncrement]) := by
  have hdrain := drainPending_all_zero v.PendingExternalInterrupts h
  simp [IdtEmulationHandleInterruptWindowExiting, hdrain]

/-- Witness for C7: draining the concrete empty capacity-2 queue. -/
theorem drain_empty_disarms_witness :
    IdtEmulationHandleInterruptWindowExiting envA
        { EnableExternalInterruptsOnContinue := false
          EnableExternalInterruptsOnContinueMtf := false
          RegisterBreakOnMtf := false
          PendingExternalInterrupts := [0, 0]
          InterruptWindowExiting := true } =
      ({ EnableExternalInterruptsOnContinue := false
         EnableExternalInterruptsOnContinueMtf := false
         RegisterBreakOnMtf := false
         PendingExternalInterrupts := [0, 0]
         InterruptWindowExiting := false },
       [Effect.setInterruptWindowExiting false,
        Effect.suppressRipIncrement]) := by
  have h := drain_empty_disarms envA
    { EnableExternalInterruptsOnContinue := false
      EnableExternalInterruptsOnContinueMtf := false
      RegisterBreakOnMtf := false
      PendingExternalInterrupts := [0, 0]
      InterruptWindowExiting := true } (by decide)
  simpa using h

/-- If some slot holds the empty sentinel, the enqueue scan stores the raw
descriptor, so it is a member of the resulting slots. -/
theorem enqueue_mem_of_empty_slot (slots : List Nat) (raw : Nat)
    (h : 0 ∈ slots) :
    raw ∈ (IdtEmulationInjectInterruptWhenInterruptWindowIsOpen slots raw).1 := by
  induction slots with
  | nil => cases h
  | cons s rest ih =>
    by_cases hs : s = 0
    · simp [IdtEmulationInjectInterruptWhenInterruptWindowIsOpen, hs]
    · rcases List.mem_cons.mp h with h0 | h0
      · exact absurd h0.symm hs
      · simp [IdtEmulationInjectInterruptWhenInterruptWindowIsOpen, hs, ih h0]

/-- A VMCS environment in which the guest is interruptible: interrupt
enable flag (bit 9) set, interruptibility state clear. -/
def envIF : VmcsEnv :=
  { exitInterruptionErrorCode := 3
    exitQualification := 77
    guestRflags := 512
    guestInterruptibilityState := 0 }

/-- Raw encoding of a valid external interrupt, vector 0x30
(valid bit 31 set, interruption type 0). -/
def descrX : Nat := 2147483696

/-- Per-core state with the continuation-suppressed flag active and an
empty capacity-2 queue. -/
def vSup : VCpuState :=
  { EnableExternalInterruptsOnContinue := true
    EnableExternalInterruptsOnContinueMtf := false
    RegisterBreakOnMtf := false
    PendingExternalInterrupts := [0, 0]
    InterruptWindowExiting := false }

/-- Claim C3: with both continuation-suppression flags clear, a valid
external-interrupt descriptor, the interrupt-enable flag set and the
MOV-SS blocking bit clear, the external-interrupt handler reads the guest
flags and interruptibility state, forwards the descriptor via generic
forwarding and suppresses the RIP increment; the per-core state (hence
every pending slot and the armed shadow) is returned unchanged, and no
arming of the window-reopen notification appears in the trace. -/
theorem external_interrupt_interruptible_forwarded (env : VmcsEnv)
    (v : VCpuState) (d : Nat)
    (hf1 : v.EnableExternalInterruptsOnContinue = false)
    (hf2 : v.EnableExternalInterruptsOnContinueMtf = false)
    (hv : validOf d = true)
    (ht : interruptionTypeOf d = INTERRUPT_TYPE_EXTERNAL_INTERRUPT)
    (hif : interruptEnableFlagOf env.guestRflags = true)
    (hss : blockingByMovSsOf env.guestInterruptibilityState = false) :
    IdtEmulationHandleExternalInterrupt env v d =
      (v, [Effect.readGuestRflags env.guestRflags,
           Effect.readGuestInterruptibilityState env.guestInterruptibilityState,
           Effect.eventInjectInterruptOrException d,
           Effect.suppressRipIncrement]) ∧
    (∀ b, Effect.setInterruptWindowExiting b ∉
      (IdtEmulationHandleExternalInterrupt env v d).2) := by
  have hmain : IdtEmulationHandleExternalInterrupt env v d =
      (v, [Effect.readGuestRflags env.guestRflags,
           Effect.readGuestInterruptibilityState env.guestInterruptibilityState,
           Effect.eventInjectInterruptOrException d,
           Effect.suppressRipIncrement]) := by
    simp [IdtEmulationHandleExternalInterrupt, hf1, hf2, hv, ht, hif, hss]
  refine ⟨hmain, ?_⟩
  intro b
  rw [hmain]
  simp

/-- Witness for C3: the concrete interruptible environment `envIF`, the
unsuppressed state `vQ2` and the valid external interrupt `descrX`. -/
theorem external_interrupt_interruptible_forwarded_witness :
    IdtEmulationHandleExternalInterrupt envIF vQ2 descrX =
      (vQ2, [Effect.readGuestRflags 512,
             Effect.readGuestInterruptibilityState 0,
             Effect.eventInjectInterruptOrException descrX,
             Effect.suppressRipIncrement]) := by
  have h := external_interrupt_interruptible_forwarded envIF vQ2 descrX
    rfl rfl (by decide) (by decide) (by decide) (by decide)
  simpa using h.1

/-- Claim C4: with both continuation-suppression flags clear, a valid
external-interrupt descriptor and a non-interruptible guest (interrupt
enable flag clear or MOV-SS blocking set), the external-interrupt handler
enqueues the descriptor (first-empty-slot scan), arms the window-reopen
notification — the trace contains exactly one arming effect — and
suppresses the RIP increment; when a free slot exists the descriptor ends
up in the queue. -/
theorem external_interrupt_noninterruptible_queued (env : VmcsEnv)
    (v : VCpuState) (d : Nat)
    (hf1 : v.EnableExternalInterruptsOnContinue = false)
    (hf2 : v.EnableExternalInterruptsOnContinueMtf = false)
    (hv : validOf d = true)
    (ht : interruptionTypeOf d = INTERRUPT_TYPE_EXTERNAL_INTERRUPT)
    (hni : interruptEnableFlagOf env.guestRflags = false ∨
           blockingByMovSsOf env.guestInterruptibilityState = true) :
    IdtEmulationHandleExternalInterrupt env v d =
      ({ v with PendingExternalInterrupts := (IdtEmulationInjectInterruptWhenInterruptWindowIsOpen v.PendingExternalInterrupts d).1, InterruptWindowExiting := true },
       [Effect.readGuestRflags env.guestRflags,
        Effect.readGuestInterruptibilityState env.guestInterruptibilityState,
        Effect.setInterruptWindowExiting true,
        Effect.suppressRipIncrement]) ∧
    (0 ∈ v.PendingExternalInterrupts →
      d ∈ (IdtEmulationHandleExternalInterrupt env v d).1.PendingExternalInterrupts) := by
  have hmain : IdtEmulationHandleExternalInterrupt env v d =
      ({ v with PendingExternalInterrupts := (IdtEmulationInjectInterruptWhenInterruptWindowIsOpen v.PendingExternalInterrupts d).1, InterruptWindowExiting := true },
       [Effect.readGuestRflags env.guestRflags,
        Effect.readGuestInterruptibilityState env.guestInterruptibilityState,
        Effect.setInterruptWindowExiting true,
        Effect.suppressRipIncrement]) := by
    rcases hni with hni | hni <;>
      simp [IdtEmulationHandleExternalInterrupt, hf1, hf2, hv, ht, hni]
  refine ⟨hmain, fun h0 => ?_⟩
  rw [hmain]
  exact enqueue_mem_of_empty_slot v.PendingExternalInterrupts d h0

/-- Witness for C4: the non-interruptible environment `envA` (guest flags
zero), the unsuppressed state `vQ2` and the valid external interrupt
`descrX`: the descriptor lands in slot 0 and the notification is armed. -/
theorem external_interrupt_noninterruptible_queued_witness :
    IdtEmulationHandleExternalInterrupt envA vQ2 descrX =
      ({ EnableExternalInterruptsOnContinue := false
         EnableExternalInterruptsOnContinueMtf := false
         RegisterBreakOnMtf := false
         PendingExternalInterrupts := [descrX, 0]
         InterruptWindowExiting := true },
       [Effect.readGuestRflags 0,
        Effect.readGuestInterruptibilityState 0,
        Effect.setInterruptWindowExiting true,
        Effect.suppressRipIncrement]) ∧
    descrX ∈ (IdtEmulationHandleExternalInterrupt envA vQ2 descrX).1.PendingExternalInterrupts := by
  have h := external_interrupt_noninterruptible_queued envA vQ2 descrX
    rfl rfl (by decide) (by decide) (Or.inl (by decide))
  exact ⟨by simpa using h.1, h.2 (by decide)⟩

/-- Claim C5: when the continuation-suppressed flag or the
continuation-suppressed-via-monitor-trap flag is active, the
external-interrupt handler enqueues any descriptor (first-empty-slot scan)
and emits only the RIP-increment suppression — in particular it performs
no immediate injection; when a free slot exists the descriptor ends up in
the queue. -/
theorem external_interrupt_suppressed_queued (env : VmcsEnv)
    (v : VCpuState) (d : Nat)
    (h : v.EnableExternalInterruptsOnContinue = true ∨
         v.EnableExternalInterruptsOnContinueMtf = true) :
    IdtEmulationHandleExternalInterrupt env v d =
      ({ v with PendingExternalInterrupts := (IdtEmulationInjectInterruptWhenInterruptWindowIsOpen v.PendingExternalInterrupts d).1 },
       [Effect.suppressRipIncrement]) ∧
    (∀ x, Effect.eventInjectInterruptOrException x ∉
      (IdtEmulationHandleExternalInterrupt env v d).2) ∧
    (0 ∈ v.PendingExternalInterrupts →
      d ∈ (IdtEmulationHandleExternalInterrupt env v d).1.PendingExternalInterrupts) := by
  have hmain : IdtEmulationHandleExternalInterrupt env v d =
      ({ v with PendingExternalInterrupts := (IdtEmulationInjectInterruptWhenInterruptWindowIsOpen v.PendingExternalInterrupts d).1 },
       [Effect.suppressRipIncrement]) := by
    rcases h with h | h <;> simp [IdtEmulationHandleExternalInterrupt, h]
  refine ⟨hmain, fun x => ?_, fun h0 => ?_⟩
  · rw [hmain]; simp
  · rw [hmain]
    exact enqueue_mem_of_empty_slot v.PendingExternalInterrupts d h0

/-- Witness for C5: the suppressed state `vSup` with an arbitrary concrete
descriptor `7`, which is enqueued into slot 0 with only a RIP-increment
suppression emitted. -/
theorem external_interrupt_suppressed_queued_witness :
    IdtEmulationHandleExternalInterrupt envA vSup 7 =
      ({ EnableExternalInterruptsOnContinue := true
         EnableExternalInterruptsOnContinueMtf := false
         RegisterBreakOnMtf := false
         PendingExternalInterrupts := [7, 0]
         InterruptWindowExiting := false },
       [Effect.suppressRipIncrement]) := by
  have h := external_interrupt_suppressed_queued envA vSup 7 (Or.inl rfl)
  simpa using h.1

/-- Claim C10: when either continuation-suppression flag is active, the
external-interrupt handler leaves the window-reopen armed shadow exactly
as it was and its trace contains no arming/disarming of the window-reopen
notification, no read of the guest flags register and no read of the
interruptibility-state field. -/
theorem suppressed_no_arm_no_reads (env : VmcsEnv) (v : VCpuState) (d : Nat)
    (h : v.EnableExternalInterruptsOnContinue = true ∨
         v.EnableExternalInterruptsOnContinueMtf = true) :
    (IdtEmulationHandleExternalInterrupt env v d).1.InterruptWindowExiting =
      v.InterruptWindowExiting ∧
    (∀ b, Effect.setInterruptWindowExiting b ∉
      (IdtEmulationHandleExternalInterrupt env v d).2) ∧
    (∀ x, Effect.readGuestRflags x ∉
      (IdtEmulationHandleExternalInterrupt env v d).2) ∧
    (∀ x, Effect.readGuestInterruptibilityState x ∉
      (IdtEmulationHandleExternalInterrupt env v d).2) := by
  rcases h with h | h <;>
    simp [IdtEmulationHandleExternalInterrupt, h]

/-- Witness for C10: the suppressed state `vSup` with descriptor `9`
keeps the armed shadow unchanged. -/
theorem suppressed_no_arm_no_reads_witness :
    (IdtEmulationHandleExternalInterrupt envA vSup 9).1.InterruptWindowExiting =
      vSup.InterruptWindowExiting :=
  (suppressed_no_arm_no_reads envA vSup 9 (Or.inl rfl)).1

/-- Claim C8: page-fault re-injection with a non-sentinel address writes
exactly that address to CR2; with the sentinel `0` ("no address") it reads
the exit qualification field and writes exactly that value to CR2; in both
cases it suppresses the RIP increment, writes the original descriptor to
the VM-entry interruption-information field, and writes the given error
code to the VM-entry exception-error-code field iff the descriptor's
error-code-valid bit is set. -/
theorem page_fault_reinjection (env : VmcsEnv) (v : VCpuState)
    (d address errorCode : Nat) :
    (address ≠ 0 →
      Effect.writeCr2 address ∈
        (IdtEmulationHandlePageFaults env v d address errorCode).2 ∧
      ∀ x, Effect.writeCr2 x ∈
        (IdtEmulationHandlePageFaults env v d address errorCode).2 →
        x = address) ∧
    (address = 0 →
      Effect.readExitQualification env.exitQualification ∈
        (IdtEmulationHandlePageFaults env v d address errorCode).2 ∧
      Effect.writeCr2 env.exitQualification ∈
        (IdtEmulationHandlePageFaults env v d address errorCode).2 ∧
      ∀ x, Effect.writeCr2 x ∈
        (IdtEmulationHandlePageFaults env v d address errorCode).2 →
        x = env.exitQualification) ∧
    Effect.suppressRipIncrement ∈
      (IdtEmulationHandlePageFaults env v d address errorCode).2 ∧
    Effect.writeVmEntryInterruptionInfo d ∈
      (IdtEmulationHandlePageFaults env v d address errorCode).2 ∧
    (Effect.writeVmEntryExceptionErrorCode errorCode ∈
      (IdtEmulationHandlePageFaults env v d address errorCode).2 ↔
      errorCodeValidOf d = true) := by
  by_cases ha : address = 0 <;> by_cases he : errorCodeValidOf d = true <;>
    simp [IdtEmulationHandlePageFaults, ha, he]

/-- Witness for C8: descriptor `2062` (page-fault vector 14 with the
error-code-valid bit set), explicit address `5`, error code `9`: `5` is
written to CR2 and `9` to the VM-entry exception-error-code field. -/
theorem page_fault_reinjection_witness :
    Effect.writeCr2 5 ∈ (IdtEmulationHandlePageFaults envIF vQ2 2062 5 9).2 ∧
    Effect.writeVmEntryExceptionErrorCode 9 ∈
      (IdtEmulationHandlePageFaults envIF vQ2 2062 5 9).2 := by
  have h := page_fault_reinjection envIF vQ2 2062 5 9
  exact ⟨(h.1 (by decide)).1, h.2.2.2.2.mpr (by decide)⟩

/-- Claim C9: on a breakpoint-vector exception exit, when the EPT
breakpoint probe reports handled, the dispatcher leaves the state
unchanged and its trace contains no debugger-breakpoint callback, no
RIP-increment suppression and no injection of any kind; a
debugger-breakpoint callback appears in the trace only when the EPT probe
declined; and a synthetic breakpoint injection appears iff both the EPT
probe and the debugger callback declined, in which case the RIP-increment
suppression also appears. -/
theorem breakpoint_ept_priority (env : VmcsEnv) (orc : Oracle)
    (v : VCpuState) (d : Nat)
    (hvec : vectorOf d = EXCEPTION_VECTOR_BREAKPOINT) :
    (orc.eptCheckAndHandleBreakpoint = true →
      (IdtEmulationHandleExceptionAndNmi env orc v d).1 = v ∧
      (∀ b, Effect.callDebuggingCallbackHandleBreakpointException b ∉
        (IdtEmulationHandleExceptionAndNmi env orc v d).2) ∧
      Effect.suppressRipIncrement ∉
        (IdtEmulationHandleExceptionAndNmi env orc v d).2 ∧
      Effect.eventInjectBreakpoint ∉
        (IdtEmulationHandleExceptionAndNmi env orc v d).2 ∧
      (∀ x, Effect.writeVmEntryInterruptionInfo x ∉
        (IdtEmulationHandleExceptionAndNmi env orc v d).2) ∧
      (∀ x, Effect.eventInjectInterruptOrException x ∉
        (IdtEmulationHandleExceptionAndNmi env orc v d).2)) ∧
    (∀ b, Effect.callDebuggingCallbackHandleBreakpointException b ∈
      (IdtEmulationHandleExceptionAndNmi env orc v d).2 →
      orc.eptCheckAndHandleBreakpoint = false) ∧
    (Effect.eventInjectBreakpoint ∈
      (IdtEmulationHandleExceptionAndNmi env orc v d).2 ↔
      (orc.eptCheckAndHandleBreakpoint = false ∧
       orc.debuggingCallbackHandleBreakpointException = false)) ∧
    (Effect.eventInjectBreakpoint ∈
      (IdtEmulationHandleExceptionAndNmi env orc v d).2 →
      Effect.suppressRipIncrement ∈
        (IdtEmulationHandleExceptionAndNmi env orc v d).2) := by
  by_cases he : orc.eptCheckAndHandleBreakpoint = true <;>
    by_cases hb : orc.debuggingCallbackHandleBreakpointException = true <;>
      simp [IdtEmulationHandleExceptionAndNmi, hvec, he, hb]

/-- Collaborator answers with the EPT breakpoint probe reporting handled. -/
def orcEpt : Oracle :=
  { eptCheckAndHandleBreakpoint := true
    debuggingCallbackHandleBreakpointException := true
    debuggingCallbackConditionalPageFaultException := false
    debuggingCallbackHandleDebugBreakpointException := false
    syscallHookHandleUD := false
    cr2 := 0 }

/-- Witness for C9: with descriptor `3` (breakpoint vector) and the EPT
probe reporting handled, no debugger-breakpoint callback and no synthetic
breakpoint injection appear in the trace. -/
theorem breakpoint_ept_priority_witness :
    (∀ b, Effect.callDebuggingCallbackHandleBreakpointException b ∉
      (IdtEmulationHandleExceptionAndNmi envA orcEpt vQ2 3).2) ∧
    Effect.eventInjectBreakpoint ∉
      (IdtEmulationHandleExceptionAndNmi envA orcEpt vQ2 3).2 := by
  have h := breakpoint_ept_priority envA orcEpt vQ2 3 (by decide)
  have h1 := h.1 rfl
  exact ⟨h1.2.1, h1.2.2.2.1⟩
